import Mathlib

/-!
Verification model of the repository
`autonomous-cross-domain-knowledge-integration-engine`.

The repository has two source files:
* `src/config.py` — a pydantic settings object (`EngineConfig`) with static
  defaults and environment overrides, plus a fixed registry of Firestore
  collection names (`FirestoreCollections`).
* `src/firebase_setup.py` — a process-wide singleton (`FirebaseManager`)
  that loads a service-account credential file, validates its shape,
  initializes the firebase_admin library at most once, obtains a Firestore
  client handle and performs a write-then-delete connectivity self-test.

The embedding below is a shallow one: the external world (the credential
file's contents and the success or failure of each third-party library
call) is an explicit `Env` record, the mutable module/class state of the
Python code is an explicit `FBState` record, and each Python method is a
pure Lean function from `Env × FBState` to a result and a new state.
Python exceptions are modelled by the `Option ErrKind` component of each
result (`some e` means the call raised `e`); Python floats that only ever
hold decimal literals are modelled as rationals.
-/

/-- A JSON value, as produced by `json.load` in `firebase_setup.py`.
Only the shape matters to the code under verification (the credential
check looks at key presence only), so a small inductive suffices. -/
inductive Json where
  | null : Json
  | bool (b : Bool) : Json
  | num (n : Int) : Json
  | str (s : String) : Json
deriving DecidableEq, Repr

/-- The kinds of exception that `FirebaseManager._initialize_firebase` can
raise: `FileNotFoundError` for a missing credential file, `ValueError` for
a malformed credential file (note `json.JSONDecodeError` is a subclass of
`ValueError` in Python), and `FirebaseError` for failures of the
firebase_admin library calls (app init, client creation, self-test). -/
inductive ErrKind where
  | fileNotFound : ErrKind
  | valueError : ErrKind
  | firebaseError : ErrKind
deriving DecidableEq, Repr

/-- The document written by the connectivity self-test:
`{"timestamp": datetime.utcnow(), "status": "connected"}` with the
timestamp abstracted to a natural number. -/
structure TestDoc where
  timestamp : Nat
  status : String
deriving DecidableEq, Repr

/-- A Firestore document path: collection name and document id, as in
`self._db.collection("connection_test").document("test")`. -/
abbrev DocPath := String × String

/-- The remote document database, modelled as an association list from
document paths to documents; the head entry shadows later ones. -/
abbrev DB := List (DocPath × TestDoc)

/-- Look up the document currently stored at a path. -/
def DB.get : DB → DocPath → Option TestDoc
  | [], _ => none
  | (k, v) :: rest, q => if k = q then some v else DB.get rest q

/-- Firestore `set`: store a document at a path, overwriting any previous
document there (the new entry shadows old ones in the association list). -/
def DB.set (db : DB) (q : DocPath) (v : TestDoc) : DB :=
  (q, v) :: db

/-- Firestore `delete`: remove every entry stored at a path. -/
def DB.delete : DB → DocPath → DB
  | [], _ => []
  | (k, v) :: rest, q =>
    if k = q then DB.delete rest q else (k, v) :: DB.delete rest q

/-- The five required credential fields checked by
`FirebaseManager._initialize_firebase` (src/firebase_setup.py line 48). -/
def required_fields : List String :=
  ["type", "project_id", "private_key_id", "private_key", "client_email"]

/-- The credential-shape check of src/firebase_setup.py line 49:
`all(field in creds_data for field in required_fields)`, where
`field in creds_data` is Python dict key membership. -/
def credsValid (creds_data : List (String × Json)) : Bool :=
  required_fields.all (fun field => creds_data.any (fun kv => kv.1 == field))

/-- The external world as seen by one initialization attempt: the
credential file at the configured path (`none` = absent, `some none` =
present but not parseable JSON, `some (some kvs)` = parses to the object
`kvs`), and the outcome of each firebase_admin / Firestore library call. -/
structure Env where
  file : Option (Option (List (String × Json)))
  certOk : Bool
  initAppOk : Bool
  clientOk : Bool
  setOk : Bool
  deleteOk : Bool
  now : Nat
deriving DecidableEq, Repr

/-- The mutable state of the `firebase_setup` module and the remote
database, plus instrumentation counters recording how often each
initialization step has run (one increment per execution of the
corresponding Python statement). -/
structure FBState where
  /-- `FirebaseManager._instance is not None`. -/
  instanceExists : Bool
  /-- the `_initialized` attribute seen by `self._initialized`; the
  instance attribute is only assigned after a successful
  `_initialize_firebase`, so it stays `false` across failures. -/
  initialized : Bool
  /-- `FirebaseManager._db`: the cached Firestore client handle,
  identified by a serial number. -/
  db : Option Nat
  /-- `len(firebase_admin._apps)`: how many underlying apps exist. -/
  apps : Nat
  /-- the remote document database contents. -/
  database : DB
  /-- executions of the credential-file existence check (line 41). -/
  credChecks : Nat
  /-- executions of `json.load` (line 47). -/
  parses : Nat
  /-- executions of `credentials.Certificate` (line 53). -/
  certBuilds : Nat
  /-- executions of `firebase_admin.initialize_app` (line 56). -/
  appInits : Nat
  /-- executions of `firestore.client()` (line 58); doubles as the serial
  number source for handles. -/
  clientsCreated : Nat
  /-- executions of `_test_connection` (line 62). -/
  selfTests : Nat
  /-- network operations issued (the `set` and `delete` of the self-test,
  the only remote operations in the visible code). -/
  networkCalls : Nat
  /-- errors written via `logger.error`, in order. -/
  errorLog : List ErrKind
deriving DecidableEq, Repr

/-- The state of a fresh process: no instance, nothing initialized,
no apps, empty database, all counters zero. -/
def initState : FBState :=
  { instanceExists := false
    initialized := false
    db := none
    apps := 0
    database := []
    credChecks := 0
    parses := 0
    certBuilds := 0
    appInits := 0
    clientsCreated := 0
    selfTests := 0
    networkCalls := 0
    errorLog := [] }

/-- `FirebaseManager._test_connection` (src/firebase_setup.py lines 71-83):
set a timestamped document at `connection_test/test`, then delete it; a
`FirebaseError` from either operation is logged and re-raised. -/
def test_connection (env : Env) (s : FBState) : Option ErrKind × FBState :=
  if env.setOk = false then
    (some .firebaseError,
      { s with selfTests := s.selfTests + 1,
               networkCalls := s.networkCalls + 1,
               errorLog := s.errorLog ++ [.firebaseError] })
  else if env.deleteOk = false then
    (some .firebaseError,
      { s with selfTests := s.selfTests + 1,
               networkCalls := s.networkCalls + 2,
               database := DB.set s.database ("connection_test", "test")
                 { timestamp := env.now, status := "connected" },
               errorLog := s.errorLog ++ [.firebaseError] })
  else
    (none,
      { s with selfTests := s.selfTests + 1,
               networkCalls := s.networkCalls + 2,
               database := DB.delete
                 (DB.set s.database ("connection_test", "test")
                   { timestamp := env.now, status := "connected" })
                 ("connection_test", "test") })

/-- The tail of `_initialize_firebase` after the guarded app
initialization: `self._db = firestore.client()` followed by
`self._test_connection()` (src/firebase_setup.py lines 58-62). -/
def client_and_test (env : Env) (s : FBState) : Option ErrKind × FBState :=
  if env.clientOk = false then (some .firebaseError, s)
  else
    test_connection env
      { s with db := some s.clientsCreated,
               clientsCreated := s.clientsCreated + 1 }

/-- The `try` body of `FirebaseManager._initialize_firebase`
(src/firebase_setup.py lines 38-62): existence check, parse, required-field
validation, certificate build, guarded `initialize_app`, client creation,
self-test. Each branch performs exactly the state changes of the Python
statements executed up to the raise. -/
def initialize_firebase_body (env : Env) (s : FBState) :
    Option ErrKind × FBState :=
  match env.file with
  | none =>
    (some .fileNotFound,
      { s with credChecks := s.credChecks + 1,
               errorLog := s.errorLog ++ [.fileNotFound] })
  | some none =>
    (some .valueError,
      { s with credChecks := s.credChecks + 1, parses := s.parses + 1 })
  | some (some creds_data) =>
    if credsValid creds_data = false then
      (some .valueError,
        { s with credChecks := s.credChecks + 1, parses := s.parses + 1 })
    else if env.certOk = false then
      (some .valueError,
        { s with credChecks := s.credChecks + 1, parses := s.parses + 1,
                 certBuilds := s.certBuilds + 1 })
    else if s.apps = 0 then
      if env.initAppOk = false then
        (some .firebaseError,
          { s with credChecks := s.credChecks + 1, parses := s.parses + 1,
                   certBuilds := s.certBuilds + 1,
                   appInits := s.appInits + 1 })
      else
        client_and_test env
          { s with credChecks := s.credChecks + 1, parses := s.parses + 1,
                   certBuilds := s.certBuilds + 1,
                   appInits := s.appInits + 1, apps := 1 }
    else
      client_and_test env
        { s with credChecks := s.credChecks + 1, parses := s.parses + 1,
                 certBuilds := s.certBuilds + 1 }

/-- `FirebaseManager._initialize_firebase` with its `except` clauses
(src/firebase_setup.py lines 64-69): any exception from the body is logged
via `logger.error` and re-raised unchanged. -/
def initialize_firebase (env : Env) (s : FBState) : Option ErrKind × FBState :=
  match initialize_firebase_body env s with
  | (none, s1) => (none, s1)
  | (some e, s1) => (some e, { s1 with errorLog := s1.errorLog ++ [e] })

/-- `FirebaseManager.__new__` (src/firebase_setup.py lines 26-29): cache
the instance if none exists yet; no other state is touched. -/
def afterNew (s : FBState) : FBState :=
  { s with instanceExists := true }

/-- One evaluation of the expression `FirebaseManager()`: `__new__` caches
the instance (src/firebase_setup.py lines 26-29), then `__init__` runs
`_initialize_firebase` and sets `_initialized` only if nothing was raised
(lines 31-34). A raised exception propagates to the caller. -/
def acquire (env : Env) (s : FBState) : Option ErrKind × FBState :=
  if s.initialized = true then (none, afterNew s)
  else
    match initialize_firebase env (afterNew s) with
    | (none, s1) => (none, { s1 with initialized := true })
    | (some e, s1) => (some e, s1)

/-- A sequence of `FirebaseManager()` calls, each under its own external
conditions, threading the process state. -/
def runAcquires (envs : List Env) (s : FBState) : FBState :=
  envs.foldl (fun t e => (acquire e t).2) s

/-- Modelled from the spec: the body of the `db` property
(src/firebase_setup.py line 88) is truncated mid-expression in the source
(`if self._db is`); per the spec sentences "no partial handle is returned"
and "Cache the handle", the accessor yields the cached handle when one
exists and yields no handle otherwise. -/
def dbProperty (s : FBState) : Option Nat :=
  match s.db with
  | none => none
  | some h => some h

/-- The handle a caller obtains from `FirebaseManager().db`: nothing when
the constructor raised (the exception propagates before `.db` can be
read), otherwise whatever the `db` property yields. -/
def acquiredHandle (env : Env) (s : FBState) : Option Nat :=
  match acquire env s with
  | (some _, _) => none
  | (none, s1) => dbProperty s1

/-- The settings record of `EngineConfig` (src/config.py lines 13-83).
Python `int` fields are integers, `float` fields are rationals (every
default is a decimal literal), lists and dicts keep their order. -/
structure EngineConfig where
  firebase_credentials_path : String
  firebase_project_id : String
  knowledge_update_interval_hours : Int
  max_domains_per_cycle : Int
  min_confidence_threshold : Rat
  request_timeout_seconds : Int
  max_retries : Int
  log_level : String
  log_file_path : String
  active_domains : List String
  relationship_weights : List (String × Rat)
deriving DecidableEq, Repr

/-- The environment overrides visible to pydantic `BaseSettings` at
construction time, one optional typed value per field (the value after
pydantic's type coercion; `none` means the variable is unset).
`firebase_project_id` covers both the `FIREBASE_PROJECT_ID` read in the
field default and a direct override. -/
structure EnvOverrides where
  firebase_credentials_path : Option String := none
  firebase_project_id : Option String := none
  knowledge_update_interval_hours : Option Int := none
  max_domains_per_cycle : Option Int := none
  min_confidence_threshold : Option Rat := none
  request_timeout_seconds : Option Int := none
  max_retries : Option Int := none
  log_level : Option String := none
  log_file_path : Option String := none
  active_domains : Option (List String) := none
  relationship_weights : Option (List (String × Rat)) := none
deriving DecidableEq, Repr

/-- Construction of `EngineConfig()` (src/config.py lines 13-86): each
field takes the environment override when present and the static default
declared in the `Field(default=...)` call otherwise. No range validation
occurs: the function is total and stores whatever values are supplied. -/
def EngineConfig.construct (o : EnvOverrides) : EngineConfig :=
  { firebase_credentials_path :=
      o.firebase_credentials_path.getD "firebase-credentials.json"
    firebase_project_id := o.firebase_project_id.getD ""
    knowledge_update_interval_hours :=
      o.knowledge_update_interval_hours.getD 6
    max_domains_per_cycle := o.max_domains_per_cycle.getD 5
    min_confidence_threshold := o.min_confidence_threshold.getD (7 / 10)
    request_timeout_seconds := o.request_timeout_seconds.getD 30
    max_retries := o.max_retries.getD 3
    log_level := o.log_level.getD "INFO"
    log_file_path := o.log_file_path.getD "logs/knowledge_engine.log"
    active_domains := o.active_domains.getD
      ["scientific_research", "technology_news",
       "academic_papers", "industry_reports"]
    relationship_weights := o.relationship_weights.getD
      [("scientific_research->technology_news", 8 / 10),
       ("academic_papers->industry_reports", 9 / 10),
       ("technology_news->scientific_research", 7 / 10)] }

/-- An `EnvOverrides` with every variable unset. -/
def noOverrides : EnvOverrides := {}

namespace FirestoreCollections

/-- `FirestoreCollections.KNOWLEDGE_NODES` (src/config.py line 91). -/
def KNOWLEDGE_NODES : String := "knowledge_nodes"

/-- `FirestoreCollections.DOMAIN_SOURCES` (src/config.py line 92). -/
def DOMAIN_SOURCES : String := "domain_sources"

/-- `FirestoreCollections.CROSS_DOMAIN_RELATIONS` (src/config.py line 93). -/
def CROSS_DOMAIN_RELATIONS : String := "cross_domain_relations"

/-- `FirestoreCollections.INTEGRATION_HISTORY` (src/config.py line 94). -/
def INTEGRATION_HISTORY : String := "integration_history"

/-- `FirestoreCollections.ERROR_LOGS` (src/config.py line 95). -/
def ERROR_LOGS : String := "error_logs"

/-- `FirestoreCollections.EVOLUTION_METRICS` (src/config.py line 96). -/
def EVOLUTION_METRICS : String := "evolution_metrics"

/-- `FirestoreCollections.all_collections` (src/config.py lines 98-108). -/
def all_collections : List String :=
  [KNOWLEDGE_NODES, DOMAIN_SOURCES, CROSS_DOMAIN_RELATIONS,
   INTEGRATION_HISTORY, ERROR_LOGS, EVOLUTION_METRICS]

end FirestoreCollections

/-- The error-log suffix appended by the `except` clauses of
`_initialize_firebase`: one entry when an exception is in flight,
nothing otherwise. -/
def errApp : Option ErrKind → List ErrKind
  | none => []
  | some e => [e]

/-- The reachability invariant of the manager state: at most one
underlying app exists, and once `_initialized` is set there is exactly one
app and a cached handle. -/
def ReachInv (s : FBState) : Prop :=
  s.apps ≤ 1 ∧ (s.initialized = true → s.apps = 1 ∧ s.db.isSome = true)

/-- A parsed credential object carrying all five required fields. -/
def goodCreds : List (String × Json) :=
  [("type", Json.str "service_account"), ("project_id", Json.str "demo"),
   ("private_key_id", Json.str "k1"), ("private_key", Json.str "secret"),
   ("client_email", Json.str "svc")]

/-- A parsed credential object that is valid JSON but lacks
`private_key`. -/
def badCreds : List (String × Json) :=
  [("type", Json.str "service_account"), ("project_id", Json.str "demo"),
   ("private_key_id", Json.str "k1"),
   ("client_email", Json.str "svc")]

/-- External conditions under which every initialization step succeeds. -/
def envGood : Env :=
  { file := some (some goodCreds), certOk := true, initAppOk := true,
    clientOk := true, setOk := true, deleteOk := true, now := 17 }

/-- External conditions with no credential file at the configured path. -/
def envBad : Env :=
  { file := none, certOk := true, initAppOk := true,
    clientOk := true, setOk := true, deleteOk := true, now := 17 }

/-- External conditions where the credential file parses but lacks
`private_key`. -/
def envMalformed : Env :=
  { file := some (some badCreds), certOk := true, initAppOk := true,
    clientOk := true, setOk := true, deleteOk := true, now := 17 }

/-! ## Lemmas about the database model -/

theorem DB.get_delete_self (db : DB) (q : DocPath) :
    DB.get (DB.delete db q) q = none := by
  induction db with
  | nil => rfl
  | cons e rest ih =>
    obtain ⟨k, v⟩ := e
    by_cases h : k = q <;> simp [DB.delete, DB.get, h, ih]

theorem DB.get_delete_ne (db : DB) (q q' : DocPath) (h : q' ≠ q) :
    DB.get (DB.delete db q) q' = DB.get db q' := by
  induction db with
  | nil => rfl
  | cons e rest ih =>
    obtain ⟨k, v⟩ := e
    by_cases hk : k = q
    · subst hk
      simp [DB.delete, DB.get, Ne.symm h, ih]
    · simp [DB.delete, DB.get, hk, ih]

theorem DB.get_set_ne (db : DB) (p q : DocPath) (v : TestDoc) (h : q ≠ p) :
    DB.get (DB.set db p v) q = DB.get db q := by
  have hp : p ≠ q := Ne.symm h
  simp [DB.set, DB.get, hp]

/-! ## Preservation lemmas for the connection-manager steps -/

@[simp] theorem tc_instanceExists (env : Env) (s : FBState) :
    ((test_connection env s).2).instanceExists = s.instanceExists := by
  unfold test_connection; split_ifs <;> rfl

@[simp] theorem tc_initialized (env : Env) (s : FBState) :
    ((test_connection env s).2).initialized = s.initialized := by
  unfold test_connection; split_ifs <;> rfl

@[simp] theorem tc_db (env : Env) (s : FBState) :
    ((test_connection env s).2).db = s.db := by
  unfold test_connection; split_ifs <;> rfl

@[simp] theorem tc_apps (env : Env) (s : FBState) :
    ((test_connection env s).2).apps = s.apps := by
  unfold test_connection; split_ifs <;> rfl

@[simp] theorem tc_credChecks (env : Env) (s : FBState) :
    ((test_connection env s).2).credChecks = s.credChecks := by
  unfold test_connection; split_ifs <;> rfl

@[simp] theorem tc_parses (env : Env) (s : FBState) :
    ((test_connection env s).2).parses = s.parses := by
  unfold test_connection; split_ifs <;> rfl

@[simp] theorem tc_certBuilds (env : Env) (s : FBState) :
    ((test_connection env s).2).certBuilds = s.certBuilds := by
  unfold test_connection; split_ifs <;> rfl

@[simp] theorem tc_appInits (env : Env) (s : FBState) :
    ((test_connection env s).2).appInits = s.appInits := by
  unfold test_connection; split_ifs <;> rfl

@[simp] theorem tc_clientsCreated (env : Env) (s : FBState) :
    ((test_connection env s).2).clientsCreated = s.clientsCreated := by
  unfold test_connection; split_ifs <;> rfl

@[simp] theorem ct_instanceExists (env : Env) (s : FBState) :
    ((client_and_test env s).2).instanceExists = s.instanceExists := by
  unfold client_and_test; split_ifs <;> simp

@[simp] theorem ct_initialized (env : Env) (s : FBState) :
    ((client_and_test env s).2).initialized = s.initialized := by
  unfold client_and_test; split_ifs <;> simp

@[simp] theorem ct_apps (env : Env) (s : FBState) :
    ((client_and_test env s).2).apps = s.apps := by
  unfold client_and_test; split_ifs <;> simp

@[simp] theorem ct_credChecks (env : Env) (s : FBState) :
    ((client_and_test env s).2).credChecks = s.credChecks := by
  unfold client_and_test; split_ifs <;> simp

@[simp] theorem ct_parses (env : Env) (s : FBState) :
    ((client_and_test env s).2).parses = s.parses := by
  unfold client_and_test; split_ifs <;> simp

@[simp] theorem ct_certBuilds (env : Env) (s : FBState) :
    ((client_and_test env s).2).certBuilds = s.certBuilds := by
  unfold client_and_test; split_ifs <;> simp

@[simp] theorem ct_appInits (env : Env) (s : FBState) :
    ((client_and_test env s).2).appInits = s.appInits := by
  unfold client_and_test; split_ifs <;> simp

theorem ct_ok_db (env : Env) (s : FBState)
    (h : (client_and_test env s).1 = none) :
    (((client_and_test env s).2).db).isSome = true := by
  unfold client_and_test at h ⊢
  split_ifs at h ⊢ with hc
  simp

@[simp] theorem body_initialized (env : Env) (s : FBState) :
    ((initialize_firebase_body env s).2).initialized = s.initialized := by
  rcases hf : env.file with _ | (_ | creds) <;>
    simp only [initialize_firebase_body, hf] <;> split_ifs <;> simp

@[simp] theorem body_instanceExists (env : Env) (s : FBState) :
    ((initialize_firebase_body env s).2).instanceExists = s.instanceExists := by
  rcases hf : env.file with _ | (_ | creds) <;>
    simp only [initialize_firebase_body, hf] <;> split_ifs <;> simp

@[simp] theorem body_credChecks (env : Env) (s : FBState) :
    ((initialize_firebase_body env s).2).credChecks = s.credChecks + 1 := by
  rcases hf : env.file with _ | (_ | creds) <;>
    simp only [initialize_firebase_body, hf] <;> split_ifs <;> simp

theorem body_apps_le (env : Env) (s : FBState) (h1 : s.apps ≤ 1) :
    ((initialize_firebase_body env s).2).apps ≤ 1 := by
  rcases hf : env.file with _ | (_ | creds) <;>
    simp only [initialize_firebase_body, hf]
  · exact h1
  · exact h1
  · split_ifs <;> simp_all

theorem body_ok_apps (env : Env) (s : FBState) (h1 : s.apps ≤ 1)
    (h : (initialize_firebase_body env s).1 = none) :
    ((initialize_firebase_body env s).2).apps = 1 := by
  rcases hf : env.file with _ | (_ | creds) <;>
    simp only [initialize_firebase_body, hf] at h ⊢
  · simp at h
  · simp at h
  · split_ifs at h ⊢ <;> simp_all <;> omega

theorem body_ok_db (env : Env) (s : FBState)
    (h : (initialize_firebase_body env s).1 = none) :
    (((initialize_firebase_body env s).2).db).isSome = true := by
  rcases hf : env.file with _ | (_ | creds) <;>
    simp only [initialize_firebase_body, hf] at h ⊢
  · simp at h
  · simp at h
  · split_ifs at h ⊢
    · exact ct_ok_db env _ h
    · exact ct_ok_db env _ h

/-! ## Lemmas about the wrapped initializer and the constructor -/

@[simp] theorem afterNew_instanceExists (s : FBState) :
    (afterNew s).instanceExists = true := rfl

@[simp] theorem afterNew_initialized (s : FBState) :
    (afterNew s).initialized = s.initialized := rfl

@[simp] theorem afterNew_db (s : FBState) : (afterNew s).db = s.db := rfl

@[simp] theorem afterNew_apps (s : FBState) : (afterNew s).apps = s.apps := rfl

@[simp] theorem afterNew_database (s : FBState) :
    (afterNew s).database = s.database := rfl

@[simp] theorem afterNew_credChecks (s : FBState) :
    (afterNew s).credChecks = s.credChecks := rfl

@[simp] theorem afterNew_parses (s : FBState) :
    (afterNew s).parses = s.parses := rfl

@[simp] theorem afterNew_certBuilds (s : FBState) :
    (afterNew s).certBuilds = s.certBuilds := rfl

@[simp] theorem afterNew_appInits (s : FBState) :
    (afterNew s).appInits = s.appInits := rfl

@[simp] theorem afterNew_clientsCreated (s : FBState) :
    (afterNew s).clientsCreated = s.clientsCreated := rfl

@[simp] theorem afterNew_selfTests (s : FBState) :
    (afterNew s).selfTests = s.selfTests := rfl

@[simp] theorem afterNew_networkCalls (s : FBState) :
    (afterNew s).networkCalls = s.networkCalls := rfl

@[simp] theorem afterNew_errorLog (s : FBState) :
    (afterNew s).errorLog = s.errorLog := rfl

theorem afterNew_of_exists (s : FBState) (hx : s.instanceExists = true) :
    afterNew s = s := by
  obtain ⟨a, b, c, d, e2, f, g, h2, i, j, k, l, m⟩ := s
  simp_all [afterNew]

theorem if2_eq (env : Env) (s : FBState) :
    initialize_firebase env s
      = ((initialize_firebase_body env s).1,
         { (initialize_firebase_body env s).2 with
             errorLog := ((initialize_firebase_body env s).2).errorLog
               ++ errApp (initialize_firebase_body env s).1 }) := by
  unfold initialize_firebase
  rcases hb : initialize_firebase_body env s with ⟨fst, s1⟩
  cases fst <;> simp [hb, errApp]

theorem if2_err_logged (env : Env) (s : FBState) (e : ErrKind)
    (h : (initialize_firebase_body env s).1 = some e) :
    e ∈ ((initialize_firebase env s).2).errorLog := by
  rw [if2_eq]
  simp [h, errApp]

theorem acquire_uninit_ok (env : Env) (s : FBState) (h0 : s.initialized = false)
    (hfst : (initialize_firebase_body env (afterNew s)).1 = none) :
    acquire env s
      = (none,
         { (initialize_firebase_body env (afterNew s)).2 with
             initialized := true }) := by
  unfold acquire
  rw [if2_eq]
  simp [h0, hfst, errApp]

theorem acquire_uninit_err (env : Env) (s : FBState) (e : ErrKind)
    (h0 : s.initialized = false)
    (hfst : (initialize_firebase_body env (afterNew s)).1 = some e) :
    acquire env s
      = (some e,
         { (initialize_firebase_body env (afterNew s)).2 with
             errorLog := ((initialize_firebase_body env (afterNew s)).2).errorLog
               ++ [e] }) := by
  unfold acquire
  rw [if2_eq]
  simp [h0, hfst, errApp]

theorem acquire_init_eq (env : Env) (s : FBState) (h0 : s.initialized = true) :
    acquire env s = (none, afterNew s) := by
  unfold acquire
  simp [h0]

theorem acquire_ok_initialized (env : Env) (s : FBState)
    (h : (acquire env s).1 = none) :
    ((acquire env s).2).initialized = true := by
  cases h0 : s.initialized
  · rcases hfst : (initialize_firebase_body env (afterNew s)).1 with _ | e
    · rw [acquire_uninit_ok env s h0 hfst]
    · rw [acquire_uninit_err env s e h0 hfst] at h
      simp at h
  · rw [acquire_init_eq env s h0]
    simpa using h0

theorem acquire_instanceExists (env : Env) (s : FBState) :
    ((acquire env s).2).instanceExists = true := by
  cases h0 : s.initialized
  · rcases hfst : (initialize_firebase_body env (afterNew s)).1 with _ | e
    · rw [acquire_uninit_ok env s h0 hfst]
      simp
    · rw [acquire_uninit_err env s e h0 hfst]
      simp
  · rw [acquire_init_eq env s h0]
    simp

theorem acquire_already (env : Env) (s : FBState)
    (h0 : s.initialized = true) (hx : s.instanceExists = true) :
    acquire env s = (none, s) := by
  rw [acquire_init_eq env s h0, afterNew_of_exists s hx]

theorem acquire_fail_initialized (env : Env) (s : FBState) (e : ErrKind)
    (h : (acquire env s).1 = some e) :
    ((acquire env s).2).initialized = false := by
  cases h0 : s.initialized
  · rcases hfst : (initialize_firebase_body env (afterNew s)).1 with _ | e2
    · rw [acquire_uninit_ok env s h0 hfst] at h
      simp at h
    · rw [acquire_uninit_err env s e2 h0 hfst]
      simp [h0]
  · rw [acquire_init_eq env s h0] at h
    simp at h

theorem acquire_uninit_credChecks (env : Env) (s : FBState)
    (h0 : s.initialized = false) :
    ((acquire env s).2).credChecks = s.credChecks + 1 := by
  rcases hfst : (initialize_firebase_body env (afterNew s)).1 with _ | e
  · rw [acquire_uninit_ok env s h0 hfst]
    simp
  · rw [acquire_uninit_err env s e h0 hfst]
    simp

theorem acquire_inv (env : Env) (s : FBState) (hs : ReachInv s) :
    ReachInv ((acquire env s).2) := by
  obtain ⟨hle, himpl⟩ := hs
  cases h0 : s.initialized
  · have hle' : (afterNew s).apps ≤ 1 := by simpa using hle
    rcases hfst : (initialize_firebase_body env (afterNew s)).1 with _ | e
    · rw [acquire_uninit_ok env s h0 hfst]
      refine ⟨?_, fun _ => ⟨?_, ?_⟩⟩
      · simp [body_ok_apps env _ hle' hfst]
      · simp [body_ok_apps env _ hle' hfst]
      · simp [body_ok_db env _ hfst]
    · rw [acquire_uninit_err env s e h0 hfst]
      refine ⟨?_, ?_⟩
      · simpa using body_apps_le env _ hle'
      · intro hcontr
        simp [h0] at hcontr
  · rw [acquire_init_eq env s h0]
    exact ⟨by simpa using hle, fun _ => by simpa using himpl h0⟩

theorem runAcquires_cons (e : Env) (l : List Env) (s : FBState) :
    runAcquires (e :: l) s = runAcquires l (acquire e s).2 := by
  simp [runAcquires]

theorem runAcquires_inv (envs : List Env) (s : FBState) (hs : ReachInv s) :
    ReachInv (runAcquires envs s) := by
  induction envs generalizing s with
  | nil => exact hs
  | cons e l ih =>
    rw [runAcquires_cons]
    exact ih _ (acquire_inv e s hs)

theorem reachInv_initState : ReachInv initState := by
  refine ⟨by simp [initState], ?_⟩
  intro hcontr
  simp [initState] at hcontr

theorem runAcquires_fixed (envs : List Env) (s : FBState)
    (h0 : s.initialized = true) (hx : s.instanceExists = true) :
    runAcquires envs s = s := by
  induction envs with
  | nil => rfl
  | cons e l ih =>
    rw [runAcquires_cons, acquire_already e s h0 hx]
    exact ih

theorem credsValid_iff (creds : List (String × Json)) :
    credsValid creds = true ↔
      ∀ f ∈ required_fields, f ∈ creds.map Prod.fst := by
  simp [credsValid, List.all_eq_true, List.any_eq_true, List.mem_map,
    beq_iff_eq]

theorem credsValid_false_of_missing (creds : List (String × Json))
    (f : String) (hf : f ∈ required_fields)
    (hmiss : ∀ kv ∈ creds, kv.1 ≠ f) :
    credsValid creds = false := by
  by_contra hc
  rw [Bool.not_eq_false] at hc
  rcases List.mem_map.mp ((credsValid_iff creds).mp hc f hf) with ⟨kv, hkv, hkv1⟩
  exact hmiss kv hkv hkv1

/-! ## Claim theorems -/

/-- Claim C7: a settings object constructed with no environment overrides
yields the documented defaults exactly: update interval 6 hours, minimum
confidence threshold 0.7, at most 5 domains per cycle, 30-second request
timeout, 3 retries, and the four documented active domains in order
(src/config.py lines 13-79; the float default is modelled as the exact
rational 0.7). -/
theorem C7_default_settings :
    (EngineConfig.construct noOverrides).knowledge_update_interval_hours = 6 ∧
    (EngineConfig.construct noOverrides).min_confidence_threshold = (0.7 : Rat) ∧
    (EngineConfig.construct noOverrides).max_domains_per_cycle = 5 ∧
    (EngineConfig.construct noOverrides).request_timeout_seconds = 30 ∧
    (EngineConfig.construct noOverrides).max_retries = 3 ∧
    (EngineConfig.construct noOverrides).active_domains
      = ["scientific_research", "technology_news",
         "academic_papers", "industry_reports"] := by
  refine ⟨rfl, ?_, rfl, rfl, rfl, rfl⟩
  norm_num [EngineConfig.construct, noOverrides]

/-- Claim C8: `all_collections` returns exactly six entries, each equal to
its documented constant, in the declared order (src/config.py lines
89-108). The accessor is a parameterless constant, so the order is the
same on every call and nothing can be registered dynamically. -/
theorem C8_all_collections :
    FirestoreCollections.all_collections
      = ["knowledge_nodes", "domain_sources", "cross_domain_relations",
         "integration_history", "error_logs", "evolution_metrics"] ∧
    FirestoreCollections.all_collections.length = 6 ∧
    FirestoreCollections.all_collections
      = [FirestoreCollections.KNOWLEDGE_NODES,
         FirestoreCollections.DOMAIN_SOURCES,
         FirestoreCollections.CROSS_DOMAIN_RELATIONS,
         FirestoreCollections.INTEGRATION_HISTORY,
         FirestoreCollections.ERROR_LOGS,
         FirestoreCollections.EVOLUTION_METRICS] :=
  ⟨rfl, rfl, rfl⟩

/-- Claim C9: settings construction performs no validation beyond type
coercion: `EngineConfig.construct` is a total function, and out-of-range
numeric values (negative timeout, negative retry count, confidence outside
the unit interval) are stored unchanged (src/config.py lines 35-48). -/
theorem C9_no_validation (t r : Int) (c : Rat)
    (ht : t < 0) (hr : r < 0) (hc : c < 0 ∨ 1 < c) :
    (EngineConfig.construct
        { request_timeout_seconds := some t, max_retries := some r,
          min_confidence_threshold := some c }).request_timeout_seconds = t ∧
    (EngineConfig.construct
        { request_timeout_seconds := some t, max_retries := some r,
          min_confidence_threshold := some c }).max_retries = r ∧
    (EngineConfig.construct
        { request_timeout_seconds := some t, max_retries := some r,
          min_confidence_threshold := some c }).min_confidence_threshold
      = c :=
  ⟨rfl, rfl, rfl⟩

/-- Witness for C9 at the concrete out-of-range values
timeout = -1, retries = -1, confidence = 2. -/
theorem C9_witness :
    ((-1 : Int) < 0 ∧ ((2 : Rat) < 0 ∨ 1 < (2 : Rat))) ∧
    ((EngineConfig.construct
        { request_timeout_seconds := some (-1), max_retries := some (-1),
          min_confidence_threshold := some 2 }).request_timeout_seconds = -1 ∧
     (EngineConfig.construct
        { request_timeout_seconds := some (-1), max_retries := some (-1),
          min_confidence_threshold := some 2 }).max_retries = -1 ∧
     (EngineConfig.construct
        { request_timeout_seconds := some (-1), max_retries := some (-1),
          min_confidence_threshold := some 2 }).min_confidence_threshold
       = 2) :=
  ⟨⟨by norm_num, Or.inr (by norm_num)⟩,
   C9_no_validation (-1) (-1) 2 (by norm_num) (by norm_num)
     (Or.inr (by norm_num))⟩

/-- Claim C10: credential-file validation inspects key presence only:
`credsValid` accepts a parsed object exactly when every one of the five
required keys occurs among its keys — independently of the values bound
to those keys (replacing every value by `null` changes nothing) and of
any extra keys (appending further entries preserves acceptance)
(src/firebase_setup.py lines 46-50). -/
theorem C10_key_presence_only (creds extra : List (String × Json)) :
    (credsValid creds = true ↔
      ∀ f ∈ required_fields, f ∈ creds.map Prod.fst) ∧
    credsValid (creds.map (fun kv => (kv.1, Json.null))) = credsValid creds ∧
    (credsValid creds = true → credsValid (creds ++ extra) = true) := by
  refine ⟨credsValid_iff creds, ?_, ?_⟩
  · rw [Bool.eq_iff_iff, credsValid_iff, credsValid_iff]
    simp [List.map_map, Function.comp]
  · intro h
    rw [credsValid_iff] at h ⊢
    intro f hf
    rw [List.map_append]
    exact List.mem_append_left _ (h f hf)

/-- Claim C2: when no file exists at the configured credential path, the
first acquisition fails with the missing-credentials error kind
(`FileNotFoundError`), and the client library is never touched: no
certificate is built, `initialize_app` is never called, and no app is
created (src/firebase_setup.py lines 41-56). -/
theorem C2_missing_credentials (env : Env) (s : FBState)
    (hfile : env.file = none) (h0 : s.initialized = false) :
    (acquire env s).1 = some ErrKind.fileNotFound ∧
    ((acquire env s).2).certBuilds = s.certBuilds ∧
    ((acquire env s).2).appInits = s.appInits ∧
    ((acquire env s).2).apps = s.apps := by
  have hfst : (initialize_firebase_body env (afterNew s)).1
      = some ErrKind.fileNotFound := by
    simp [initialize_firebase_body, hfile]
  rw [acquire_uninit_err env s ErrKind.fileNotFound h0 hfst]
  refine ⟨rfl, ?_, ?_, ?_⟩ <;>
    simp [initialize_firebase_body, hfile]

/-- Witness for C2: in a fresh process with no credential file
(`envBad`), acquisition fails with `fileNotFound` and no certificate,
app-init call or app appears. -/
theorem C2_witness :
    (envBad.file = none ∧ initState.initialized = false) ∧
    ((acquire envBad initState).1 = some ErrKind.fileNotFound ∧
     ((acquire envBad initState).2).certBuilds = initState.certBuilds ∧
     ((acquire envBad initState).2).appInits = initState.appInits ∧
     ((acquire envBad initState).2).apps = initState.apps) :=
  ⟨⟨rfl, rfl⟩, C2_missing_credentials envBad initState rfl rfl⟩

/-- Claim C3: when the credential file parses as structured data but
lacks one of the five required identity fields, acquisition fails with
the malformed-credentials error kind (`ValueError`), and no network call
occurs before the failure: the self-test never runs, no client is
created, and no app is created (src/firebase_setup.py lines 46-50). -/
theorem C3_malformed_credentials (env : Env) (s : FBState)
    (creds : List (String × Json)) (f : String)
    (hfile : env.file = some (some creds)) (hf : f ∈ required_fields)
    (hmiss : ∀ kv ∈ creds, kv.1 ≠ f) (h0 : s.initialized = false) :
    (acquire env s).1 = some ErrKind.valueError ∧
    ((acquire env s).2).networkCalls = s.networkCalls ∧
    ((acquire env s).2).selfTests = s.selfTests ∧
    ((acquire env s).2).clientsCreated = s.clientsCreated ∧
    ((acquire env s).2).apps = s.apps := by
  have hcv : credsValid creds = false :=
    credsValid_false_of_missing creds f hf hmiss
  have hfst : (initialize_firebase_body env (afterNew s)).1
      = some ErrKind.valueError := by
    simp [initialize_firebase_body, hfile, hcv]
  rw [acquire_uninit_err env s ErrKind.valueError h0 hfst]
  refine ⟨rfl, ?_, ?_, ?_, ?_⟩ <;>
    simp [initialize_firebase_body, hfile, hcv]

/-- Witness for C3: a fresh process whose credential file is valid JSON
but lacks `private_key` (`envMalformed`) fails with `valueError` and
issues no network call. -/
theorem C3_witness :
    (envMalformed.file = some (some badCreds) ∧
     ("private_key" ∈ required_fields) ∧
     (∀ kv ∈ badCreds, kv.1 ≠ "private_key") ∧
     initState.initialized = false) ∧
    ((acquire envMalformed initState).1 = some ErrKind.valueError ∧
     ((acquire envMalformed initState).2).networkCalls
       = initState.networkCalls ∧
     ((acquire envMalformed initState).2).selfTests = initState.selfTests ∧
     ((acquire envMalformed initState).2).clientsCreated
       = initState.clientsCreated ∧
     ((acquire envMalformed initState).2).apps = initState.apps) :=
  ⟨⟨rfl, by decide, by decide, rfl⟩,
   C3_malformed_credentials envMalformed initState badCreds "private_key"
     rfl (by decide) (by decide) rfl⟩

/-- Claim C5: every exception raised during initialization steps 1-5 (the
`try` body of `_initialize_firebase`) is logged and re-raised unchanged to
the caller of `FirebaseManager()`, and the caller obtains no database
handle from the failed acquisition (src/firebase_setup.py lines 64-69 and
the `db` property, whose truncated body is modelled from the spec in
`dbProperty`). -/
theorem C5_log_and_reraise (env : Env) (s : FBState) (e : ErrKind)
    (h0 : s.initialized = false)
    (h : (initialize_firebase_body env (afterNew s)).1 = some e) :
    (acquire env s).1 = some e ∧
    e ∈ ((acquire env s).2).errorLog ∧
    acquiredHandle env s = none := by
  rw [acquire_uninit_err env s e h0 h]
  refine ⟨rfl, by simp, ?_⟩
  unfold acquiredHandle
  rw [acquire_uninit_err env s e h0 h]

/-- Witness for C5: in a fresh process with no credential file, the
`fileNotFoundError` is re-raised by the constructor, appears in the error
log, and the caller gets no handle. -/
theorem C5_witness :
    (initState.initialized = false ∧
     (initialize_firebase_body envBad (afterNew initState)).1
       = some ErrKind.fileNotFound) ∧
    ((acquire envBad initState).1 = some ErrKind.fileNotFound ∧
     ErrKind.fileNotFound ∈ ((acquire envBad initState).2).errorLog ∧
     acquiredHandle envBad initState = none) :=
  ⟨⟨rfl, by decide⟩,
   C5_log_and_reraise envBad initState ErrKind.fileNotFound rfl (by decide)⟩

/-- Claim C6: the connectivity self-test writes the timestamped test
document at the dedicated location `connection_test/test` and then deletes
that same document, so on success the resulting database is exactly the
write-then-delete of the original, the test location holds no document,
and every other location is unchanged (src/firebase_setup.py lines
71-83). -/
theorem C6_self_test_clean (env : Env) (s : FBState)
    (h : (test_connection env s).1 = none) :
    ((test_connection env s).2).database
      = DB.delete
          (DB.set s.database ("connection_test", "test")
            { timestamp := env.now, status := "connected" })
          ("connection_test", "test") ∧
    DB.get (((test_connection env s).2).database)
      ("connection_test", "test") = none ∧
    (∀ q : DocPath, q ≠ ("connection_test", "test") →
      DB.get (((test_connection env s).2).database) q
        = DB.get s.database q) := by
  unfold test_connection at h ⊢
  split_ifs at h ⊢
  refine ⟨rfl, DB.get_delete_self _ _, ?_⟩
  intro q hq
  rw [DB.get_delete_ne _ _ _ hq, DB.get_set_ne _ _ _ _ hq]

/-- Witness for C6: with every remote call succeeding (`envGood`) from an
empty database, the self-test succeeds and leaves the test location
empty. -/
theorem C6_witness :
    ((test_connection envGood initState).1 = none) ∧
    (((test_connection envGood initState).2).database
      = DB.delete
          (DB.set initState.database ("connection_test", "test")
            { timestamp := envGood.now, status := "connected" })
          ("connection_test", "test") ∧
     DB.get (((test_connection envGood initState).2).database)
       ("connection_test", "test") = none ∧
     (∀ q : DocPath, q ≠ ("connection_test", "test") →
       DB.get (((test_connection envGood initState).2).database) q
         = DB.get initState.database q)) :=
  ⟨by decide, C6_self_test_clean envGood initState (by decide)⟩

/-- Counterexample to claim C4 as stated: a failed state is not terminal.
In a fresh process the first acquisition fails (no credential file), yet
because `_initialized` was never set, a second acquisition call re-runs
initialization (the credential existence check runs a second time) and,
the file now being present and valid, reaches the ready state. -/
theorem C4_counterexample :
    (acquire envBad initState).1 = some ErrKind.fileNotFound ∧
    ((acquire envBad initState).2).initialized = false ∧
    ((acquire envGood ((acquire envBad initState).2)).2).credChecks = 2 ∧
    (acquire envGood ((acquire envBad initState).2)).1 = none ∧
    ((acquire envGood ((acquire envBad initState).2)).2).initialized
      = true := by
  decide

/-- Claim C4 (amended): after a failed acquisition the `_initialized` flag
remains false, so the failed state is not terminal: every later
acquisition call re-runs initialization (the credential check executes
again), and may reach the ready state if conditions have changed
(src/firebase_setup.py lines 31-34: the flag is only set after a
successful `_initialize_firebase`). -/
theorem C4_failure_not_terminal (env envNext : Env) (s : FBState)
    (e : ErrKind) (h0 : s.initialized = false)
    (h : (acquire env s).1 = some e) :
    ((acquire env s).2).initialized = false ∧
    ((acquire envNext ((acquire env s).2)).2).credChecks
      = ((acquire env s).2).credChecks + 1 := by
  have h1 := acquire_fail_initialized env s e h
  exact ⟨h1, acquire_uninit_credChecks envNext _ h1⟩

/-- Witness for the amended C4: a failed first acquisition (missing file)
leaves the flag unset and a second call re-runs the credential check. -/
theorem C4_witness :
    (initState.initialized = false ∧
     (acquire envBad initState).1 = some ErrKind.fileNotFound) ∧
    (((acquire envBad initState).2).initialized = false ∧
     ((acquire envGood ((acquire envBad initState).2)).2).credChecks
       = ((acquire envBad initState).2).credChecks + 1) :=
  ⟨⟨rfl, by decide⟩,
   C4_failure_not_terminal envBad envGood initState ErrKind.fileNotFound
     rfl (by decide)⟩

/-- Claim C1: in any process trace whose latest acquisition succeeded,
exactly one underlying client app exists, a database handle is cached, and
every subsequent `FirebaseManager()` call — under arbitrary external
conditions — returns with no error and leaves the state completely
unchanged (same cached handle, no re-run of the credential check, parse,
certificate build, app init, client creation or self-test, since every
step counter is part of the state). -/
theorem C1_idempotent_singleton (envs envs2 : List Env) (env envNext : Env)
    (h : (acquire env (runAcquires envs initState)).1 = none) :
    ((acquire env (runAcquires envs initState)).2).apps = 1 ∧
    (((acquire env (runAcquires envs initState)).2).db).isSome = true ∧
    acquire envNext ((acquire env (runAcquires envs initState)).2)
      = (none, (acquire env (runAcquires envs initState)).2) ∧
    runAcquires envs2 ((acquire env (runAcquires envs initState)).2)
      = (acquire env (runAcquires envs initState)).2 := by
  have hInv0 : ReachInv (runAcquires envs initState) :=
    runAcquires_inv envs initState reachInv_initState
  have hInv1 : ReachInv ((acquire env (runAcquires envs initState)).2) :=
    acquire_inv env _ hInv0
  have hinit := acquire_ok_initialized env _ h
  have hex := acquire_instanceExists env (runAcquires envs initState)
  obtain ⟨hle, himpl⟩ := hInv1
  obtain ⟨happ, hdb⟩ := himpl hinit
  exact ⟨happ, hdb, acquire_already envNext _ hinit hex,
    runAcquires_fixed envs2 _ hinit hex⟩

/-- Witness for C1: a successful first acquisition (`envGood`) yields one
app and a cached handle, and later calls — even under hostile external
conditions (`envBad`) — change nothing. -/
theorem C1_witness :
    ((acquire envGood (runAcquires [] initState)).1 = none) ∧
    (((acquire envGood (runAcquires [] initState)).2).apps = 1 ∧
     (((acquire envGood (runAcquires [] initState)).2).db).isSome = true ∧
     acquire envBad ((acquire envGood (runAcquires [] initState)).2)
       = (none, (acquire envGood (runAcquires [] initState)).2) ∧
     runAcquires [envBad, envGood]
         ((acquire envGood (runAcquires [] initState)).2)
       = (acquire envGood (runAcquires [] initState)).2) :=
  ⟨by decide,
   C1_idempotent_singleton [] [envBad, envGood] envGood envBad (by decide)⟩
